import Mathlib

/-!
Shallow embedding of `src/weather-bar.ts` (the `WeatherBar` Lit component of
lovelace-hourly-weather) and verification of its specified properties.

The component's `render` method computes three things from its attributes:
condition-bar segments with grid column spans, axis blocks sampled at odd
indices of the parallel temperature/wind/precipitation sequences, and an
optional color-override style block.  The `update` method tears down and
rebuilds tooltip bindings.  Each is embedded below as a pure function over
explicit inputs, mirroring the TypeScript line by line.
-/

/-- A JavaScript value as it appears in the relevant expressions of
`weather-bar.ts`: either `undefined` (a missing object-property lookup) or a
string.  Used to model `this.labels[cond[0]]` and `ICONS[cond[0]]`. -/
inductive JSVal where
  | undef : JSVal
  | str : String → JSVal
deriving DecidableEq, Repr

/-- JavaScript strict equality `v === s` between a possibly-undefined value
and a string: `undefined === s` is `false`; two strings compare by content. -/
def jsEq : JSVal → String → Bool
  | JSVal.undef, _ => false
  | JSVal.str s, t => s == t

/-- JavaScript string concatenation `p + v`: `undefined` coerces to the text
`"undefined"`. -/
def jsConcat (p : String) : JSVal → String
  | JSVal.undef => p ++ "undefined"
  | JSVal.str s => p ++ s

/-- Object-property lookup `table[key]` on a string-keyed table, yielding
`undefined` when the key is absent.  Tables (`LABELS`, `ICONS`, overrides
supplied by the host) are modelled as association lists. -/
def jsLookup (table : List (String × String)) (key : String) : JSVal :=
  match table.lookup key with
  | some v => JSVal.str v
  | none => JSVal.undef

/-- Icon resolution from `render` (lines 55-57):
`let icon = ICONS[cond[0]]; if (icon === cond[0]) icon = 'mdi:weather-' + icon;
else icon = 'mdi:' + icon;`. -/
def resolveIcon (icons : List (String × String)) (key : String) : String :=
  let icon := jsLookup icons key
  if jsEq icon key then jsConcat "mdi:weather-" icon
  else jsConcat "mdi:" icon

/-- One rendered condition-bar segment (one `<div>` pushed onto
`conditionBars`): its CSS class is the raw condition key, its grid columns
come from the running cursor, its tooltip text (`data-tippy-content`) and
text label are the `labels` lookup result, and its icon is the resolved
icon identifier. -/
structure BarSegment where
  className : String
  colStart : Int
  colEnd : Int
  tooltip : JSVal
  icon : String
  label : JSVal
deriving DecidableEq, Repr

/-- The condition-bar loop of `render` (lines 52-66), with the running
cursor `gridStart` made explicit.  `barStyles` sets
`gridColumnStart: gridStart` and `gridColumnEnd: (gridStart += cond[1])`,
so the segment ends at `start + duration` and the cursor advances to that
end before the next span. -/
def renderBarFrom (labels icons : List (String × String)) :
    List (String × Int) → Int → List BarSegment
  | [], _ => []
  | cond :: rest, gridStart =>
    { className := cond.1
      colStart := gridStart
      colEnd := gridStart + cond.2
      tooltip := jsLookup labels cond.1
      icon := resolveIcon icons cond.1
      label := jsLookup labels cond.1 } :: renderBarFrom labels icons rest (gridStart + cond.2)

/-- The condition bar: the loop starts with `let gridStart = 1`. -/
def conditionBars (labels icons : List (String × String))
    (conds : List (String × Int)) : List BarSegment :=
  renderBarFrom labels icons conds 1

/-- The indices visited by `for (let i = 1; i < n; i += 2)` starting at a
given `i`. -/
def axisIndicesFrom (n i : Nat) : List Nat :=
  if i < n then i :: axisIndicesFrom n (i + 2) else []
termination_by n - i

/-- The indices visited by the axis loop of `render` (line 69):
`for (let i = 1; i < this.temperatures.length; i += 2)`. -/
def axisIndices (n : Nat) : List Nat :=
  axisIndicesFrom n 1

/-- Label suppression for a sampled index (line 70):
`const skipLabel = (i - 1) % this.label_spacing !== 0;`.
`label_spacing` is the positive-integer spacing attribute (default 2), and
every sampled `i` satisfies `i ≥ 1`, so JavaScript `%` agrees with `Nat.mod`. -/
def skipLabel (labelSpacing i : Nat) : Bool :=
  (i - 1) % labelSpacing != 0

/-- One per-slot entry of `this.temperatures`. -/
structure SegmentTemperature where
  hour : String
  temperature : Int
deriving DecidableEq, Repr

/-- One per-slot entry of `this.wind`. -/
structure SegmentWind where
  windSpeed : String
  windSpeedRawMS : Int
  windDirection : String
  windDirectionRaw : Int
deriving DecidableEq, Repr

/-- One per-slot entry of `this.precipitation`. -/
structure SegmentPrecipitation where
  precipitationAmount : String
deriving DecidableEq, Repr

/-- The rotated wind-barb glyph produced by `getWindBarb` (lines 141-148):
an SVG whose style carries `transform: rotate(<direction>deg)` and whose
body is `getWindBarbSVG(speed)`. -/
structure WindBarbSVG where
  transform : String
  speed : Int
deriving DecidableEq, Repr

/-- The construction `getWindBarb(speed, direction)`. -/
def getWindBarb (speed direction : Int) : WindBarbSVG :=
  { transform := "rotate(" ++ toString direction ++ "deg)", speed := speed }

/-- One item pushed onto the `wind` template list for a slot: speed text,
the separating `<br>`, direction text, or the barb `<span>` whose `title`
is `` `${windSpeed} ${windDirection}` ``. -/
inductive WindItem where
  | speedText : String → WindItem
  | lineBreak : WindItem
  | directionText : String → WindItem
  | barb : String → WindBarbSVG → WindItem
deriving DecidableEq, Repr

/-- The wind-content construction of `render` (lines 73-86) for one slot:
the four visibility flags and the four conditional pushes, in source order. -/
def windContent (showWind : String) (skip : Bool) (w : SegmentWind) : List WindItem :=
  let showWindSpeed := (showWind == "true" || showWind == "speed") && !skip
  let showWindDirection := (showWind == "true" || showWind == "direction") && !skip
  let showWindBarb := showWind == "barb" && !skip
  (if showWindSpeed then [WindItem.speedText w.windSpeed] else []) ++
  (if showWindSpeed && showWindDirection then [WindItem.lineBreak] else []) ++
  (if showWindDirection then [WindItem.directionText w.windDirection] else []) ++
  (if showWindBarb then
    [WindItem.barb (w.windSpeed ++ " " ++ w.windDirection)
      (getWindBarb w.windSpeedRawMS w.windDirectionRaw)]
  else [])

/-- The display-configuration attributes read by the axis loop. -/
structure Config where
  hide_hours : Bool
  hide_temperatures : Bool
  show_wind : String
  show_precipitation_amounts : Bool
  label_spacing : Nat
deriving DecidableEq, Repr

/-- One rendered axis block (`bar-block` div, lines 89-100): the four
optional sub-regions.  `none` models the `null` branch of each ternary. -/
structure BarBlock where
  hour : Option String
  temperature : Option Int
  wind : List WindItem
  precipitation : Option String
deriving DecidableEq, Repr

/-- The body of the axis loop (lines 70-100) for one sampled index `i`,
given the slot data already fetched from the three parallel arrays. -/
def renderBlock (cfg : Config) (i : Nat) (t : SegmentTemperature)
    (w : SegmentWind) (p : SegmentPrecipitation) : BarBlock :=
  let skip := skipLabel cfg.label_spacing i
  let hideHours := cfg.hide_hours || skip
  let hideTemperature := cfg.hide_temperatures || skip
  let showPrecipitationAmounts := cfg.show_precipitation_amounts && !skip
  { hour := if hideHours then none else some t.hour
    temperature := if hideTemperature then none else some t.temperature
    wind := windContent cfg.show_wind skip w
    precipitation := if showPrecipitationAmounts then some p.precipitationAmount else none }

/-- The whole axis loop: for each visited index, the three array accesses
`this.temperatures[i]`, `this.wind[i]`, `this.precipitation[i]` are
modelled as optional lookups; an out-of-range access yields `none` for the
block (in JavaScript the destructuring of `undefined` would throw). -/
def renderAxis (cfg : Config) (ts : List SegmentTemperature)
    (ws : List SegmentWind) (ps : List SegmentPrecipitation) :
    List (Option BarBlock) :=
  (axisIndices ts.length).map (fun i =>
    match ts[i]?, ws[i]?, ps[i]? with
    | some t, some w, some p => some (renderBlock cfg i t w p)
    | _, _, _ => none)

/-- The method `getColorStyles` (lines 128-139): `null` when the map is empty,
otherwise the custom-property declarations `--color-<key>: <value>;`
joined with a single space (the constant `.main > .bar { … }` wrapper is
omitted; the joined declarations are the entire variable content of the
style block). -/
def getColorStyles (colors : List (String × String)) : Option String :=
  if colors.length == 0 then none
  else
    some (String.intercalate " "
      (colors.map (fun kv => "--color-" ++ kv.1 ++ ": " ++ kv.2 ++ ";")))

/-- The color-override step of `render` (lines 103-106): `this.colors` may
be `undefined` (modelled as `none`), in which case no style block is
emitted at all; otherwise `getColorStyles` decides. -/
def colorStylesBlock (colors : Option (List (String × String))) : Option String :=
  match colors with
  | none => none
  | some m => getColorStyles m

/-- An observable tooltip-lifecycle event of `update` (lines 117-126):
destruction of an existing tippy instance, or creation of a new instance
bound to a condition-bar segment element. -/
inductive TipEvent (α : Type) where
  | destroy : α → TipEvent α
  | create : α → TipEvent α
deriving DecidableEq, Repr

/-- The statement `this.tips.forEach(t => t.destroy());` — one destroy event
per stored instance, in order. -/
def destroyAll {α : Type} : List α → List (TipEvent α)
  | [] => []
  | t :: ts => TipEvent.destroy t :: destroyAll ts

/-- The call `tippy(this.renderRoot.querySelectorAll('.bar > div'), …)` — one
create event per current condition-bar segment element, in order. -/
def bindAll {α : Type} : List α → List (TipEvent α)
  | [] => []
  | s :: ss => TipEvent.create s :: bindAll ss

/-- The component's tooltip state: the stored instance set (`this.tips`,
identified by the segment element each instance is bound to) together with
the trace of lifecycle events performed so far. -/
structure TooltipState (α : Type) where
  tips : List α
  trace : List (TipEvent α)
deriving Repr

/-- The lifecycle events performed by one `update` call, in execution order:
all destroys of the previously stored instances, then all creations for the
current segment elements. -/
def tooltipEvents {α : Type} (st : TooltipState α) (currentSegments : List α) :
    List (TipEvent α) :=
  destroyAll st.tips ++ bindAll currentSegments

/-- The `update` method (lines 117-126): first destroy every stored
instance, then create and store one instance per current segment element. -/
def updateTooltips {α : Type} (st : TooltipState α) (currentSegments : List α) :
    TooltipState α :=
  { tips := currentSegments
    trace := st.trace ++ tooltipEvents st currentSegments }

/-- Whether an event is a destruction. -/
def TipEvent.isDestroy {α : Type} : TipEvent α → Bool
  | TipEvent.destroy _ => true
  | TipEvent.create _ => false

/-- Whether an event is a creation. -/
def TipEvent.isCreate {α : Type} : TipEvent α → Bool
  | TipEvent.destroy _ => false
  | TipEvent.create _ => true

/-! ## Supporting lemmas -/

/-- Each rendered segment corresponds to the condition span at the same
index: same class, labels-lookup tooltip and text, resolved icon, a start
column displaced from the loop's initial cursor by the sum of the preceding
durations, and an end column equal to start plus own duration. -/
theorem renderBarFrom_getElem? (labels icons : List (String × String)) :
    ∀ (conds : List (String × Int)) (start : Int) (i : Nat) (s : BarSegment),
      (renderBarFrom labels icons conds start)[i]? = some s →
      ∃ c, conds[i]? = some c ∧
        s.className = c.1 ∧
        s.tooltip = jsLookup labels c.1 ∧
        s.label = jsLookup labels c.1 ∧
        s.icon = resolveIcon icons c.1 ∧
        s.colStart = start + ((conds.take i).map (fun x => x.2)).sum ∧
        s.colEnd = s.colStart + c.2 := by
  intro conds
  induction conds with
  | nil =>
    intro start i s h
    simp [renderBarFrom] at h
  | cons c rest ih =>
    intro start i s h
    cases i with
    | zero =>
      rw [renderBarFrom] at h
      simp only [List.getElem?_cons_zero, Option.some.injEq] at h
      subst h
      exact ⟨c, by simp, rfl, rfl, rfl, rfl, by simp, rfl⟩
    | succ n =>
      rw [renderBarFrom] at h
      simp only [List.getElem?_cons_succ] at h
      obtain ⟨d, hd, h1, h2, h3, h4, h5, h6⟩ := ih (start + c.2) n s h
      refine ⟨d, by simpa using hd, h1, h2, h3, h4, ?_, h6⟩
      rw [h5]
      simp [List.take_succ_cons]
      ring

/-- The rendered bar has one segment per condition span. -/
theorem renderBarFrom_length (labels icons : List (String × String)) :
    ∀ (conds : List (String × Int)) (start : Int),
      (renderBarFrom labels icons conds start).length = conds.length := by
  intro conds
  induction conds with
  | nil => intro start; rfl
  | cons c rest ih => intro start; rw [renderBarFrom]; simp [ih]

/-- An element of a list at a valid index, as an optional lookup. -/
theorem getElem?_isSome_of_lt {α : Type} (l : List α) (i : Nat)
    (h : i < l.length) : l[i]?.isSome = true := by
  rw [List.getElem?_eq_getElem h]
  rfl


/-- Characterisation of the loop head values: from start `i`, the loop
visits exactly the indices below `n` that are at least `i` and of the same
parity as `i`. -/
theorem mem_axisIndicesFrom (n i j : Nat) :
    j ∈ axisIndicesFrom n i ↔ (i ≤ j ∧ j < n ∧ (j - i) % 2 = 0) := by
  induction i using axisIndicesFrom.induct n with
  | case1 i h ih =>
    rw [axisIndicesFrom, if_pos h]
    simp only [List.mem_cons, ih]
    omega
  | case2 i h =>
    rw [axisIndicesFrom, if_neg h]
    simp only [List.not_mem_nil, false_iff]
    omega

/-- Number of loop iterations from start `i`. -/
theorem length_axisIndicesFrom (n i : Nat) :
    (axisIndicesFrom n i).length = (n + 1 - i) / 2 := by
  induction i using axisIndicesFrom.induct n with
  | case1 i h ih =>
    rw [axisIndicesFrom, if_pos h]
    simp only [List.length_cons, ih]
    omega
  | case2 i h =>
    rw [axisIndicesFrom, if_neg h]
    simp only [List.length_nil]
    omega

/-! ## The claims -/

/-- C1: for every conditions sequence with positive durations, the
condition-bar layout assigns the first segment grid start column 1, gives
each segment an end column equal to its start plus its duration, makes
consecutive segments contiguous, makes every end column exceed the initial
cursor 1 by the sum of the durations so far (so the total column count is
the sum of all durations), and on `[("sunny", 2), ("rainy", 1)]` yields the
column spans `[1,3)` and `[3,4)`. -/
theorem C1_condition_bar_layout (labels icons : List (String × String))
    (conds : List (String × Int)) (_hpos : ∀ c ∈ conds, 0 < c.2) :
    (∀ s : BarSegment, (conditionBars labels icons conds)[0]? = some s → s.colStart = 1) ∧
    (∀ (i : Nat) (s : BarSegment) (c : String × Int),
      (conditionBars labels icons conds)[i]? = some s →
      conds[i]? = some c → s.colEnd = s.colStart + c.2) ∧
    (∀ (i : Nat) (s s' : BarSegment),
      (conditionBars labels icons conds)[i]? = some s →
      (conditionBars labels icons conds)[i + 1]? = some s' →
      s.colEnd = s'.colStart) ∧
    (∀ (i : Nat) (s : BarSegment),
      (conditionBars labels icons conds)[i]? = some s →
      s.colEnd = 1 + (((conds.take (i + 1)).map (fun c => c.2)).sum)) ∧
    ((conditionBars labels icons [("sunny", (2 : Int)), ("rainy", 1)]).map
      (fun s => (s.colStart, s.colEnd)) = [((1 : Int), (3 : Int)), (3, 4)]) := by
  refine ⟨?_, ?_, ?_, ?_, ?_⟩
  · intro s h
    obtain ⟨c, _, _, _, _, _, h5, _⟩ :=
      renderBarFrom_getElem? labels icons conds 1 0 s (by exact h)
    simpa using h5
  · intro i s c hs hc
    obtain ⟨c', hc', _, _, _, _, _, h6⟩ :=
      renderBarFrom_getElem? labels icons conds 1 i s (by exact hs)
    rw [hc] at hc'
    cases hc'
    exact h6
  · intro i s s' hs hs'
    obtain ⟨c, hc, _, _, _, _, h5, h6⟩ :=
      renderBarFrom_getElem? labels icons conds 1 i s (by exact hs)
    obtain ⟨c', hc', _, _, _, _, h5', _⟩ :=
      renderBarFrom_getElem? labels icons conds 1 (i + 1) s' (by exact hs')
    rw [h6, h5, h5']
    have htake : conds.take (i + 1) = conds.take i ++ [c] := by
      rw [List.take_succ, hc]
      rfl
    rw [htake]
    simp
    ring
  · intro i s hs
    obtain ⟨c, hc, _, _, _, _, h5, h6⟩ :=
      renderBarFrom_getElem? labels icons conds 1 i s (by exact hs)
    have htake : conds.take (i + 1) = conds.take i ++ [c] := by
      rw [List.take_succ, hc]
      rfl
    rw [h6, h5, htake]
    simp
    ring
  · simp only [conditionBars, renderBarFrom, List.map_cons, List.map_nil]
    norm_num

/-- C1 witness: the layout facts at the concrete spec scenario. -/
theorem C1_condition_bar_layout_witness :
    (conditionBars [] [] [("sunny", (2 : Int)), ("rainy", 1)]).map
      (fun s => (s.colStart, s.colEnd)) = [((1 : Int), (3 : Int)), (3, 4)] :=
  (C1_condition_bar_layout [] [] [("sunny", 2), ("rainy", 1)]
    (by intro c hc; fin_cases hc <;> norm_num)).2.2.2.2

/-- C2 counterexample: for temperatures of length 2 the loop runs once
(`i = 1`), producing 1 axis block, while `floor((2-1)/2) = 0`. -/
theorem C2_axis_count_cex : (axisIndices 2).length ≠ (2 - 1) / 2 := by
  rw [axisIndices, length_axisIndicesFrom]
  norm_num

/-- C2 (amended): the axis loop visits exactly the odd indices
1, 3, 5, … strictly less than `n`, and the number of iterations — hence of
axis blocks — is `floor(n/2)` (equivalently `ceil((n-1)/2)`), not
`floor((n-1)/2)`, which undercounts by one whenever `n` is even. -/
theorem C2_axis_sampling :
    (∀ n i : Nat, i ∈ axisIndices n ↔ (i % 2 = 1 ∧ i < n)) ∧
    (∀ n : Nat, (axisIndices n).length = n / 2) ∧
    (∀ (cfg : Config) (ts : List SegmentTemperature) (ws : List SegmentWind)
      (ps : List SegmentPrecipitation),
      (renderAxis cfg ts ws ps).length = ts.length / 2) := by
  refine ⟨?_, ?_, ?_⟩
  · intro n i
    rw [axisIndices, mem_axisIndicesFrom]
    omega
  · intro n
    rw [axisIndices, length_axisIndicesFrom]
    omega
  · intro cfg ts ws ps
    rw [renderAxis, List.length_map, axisIndices, length_axisIndicesFrom]
    omega

/-- A slot whose label is suppressed renders no wind content at all. -/
theorem windContent_skip (m : String) (w : SegmentWind) :
    windContent m true w = [] := by
  simp [windContent]

/-- C3: a sampled index is suppressed iff `(i-1) mod label_spacing ≠ 0`;
spacing 1 never suppresses; and a suppressed slot renders no hour text, no
temperature text, no wind detail and no precipitation amount, whatever the
global display flags are. -/
theorem C3_label_suppression (cfg : Config) (_hsp : 1 ≤ cfg.label_spacing)
    (n i : Nat) (_hi : i ∈ axisIndices n)
    (t : SegmentTemperature) (w : SegmentWind) (p : SegmentPrecipitation) :
    (skipLabel cfg.label_spacing i = true ↔ (i - 1) % cfg.label_spacing ≠ 0) ∧
    (cfg.label_spacing = 1 → skipLabel cfg.label_spacing i = false) ∧
    (skipLabel cfg.label_spacing i = true →
      (renderBlock cfg i t w p).hour = none ∧
      (renderBlock cfg i t w p).temperature = none ∧
      (renderBlock cfg i t w p).wind = [] ∧
      (renderBlock cfg i t w p).precipitation = none) := by
  refine ⟨?_, ?_, ?_⟩
  · simp [skipLabel]
  · intro h1
    simp [skipLabel, h1, Nat.mod_one]
  · intro hskip
    refine ⟨?_, ?_, ?_, ?_⟩ <;>
      simp [renderBlock, hskip, windContent_skip]

/-- C3 witness: spacing 3 suppresses sampled index 3 entirely. -/
theorem C3_label_suppression_witness :
    (renderBlock ⟨false, false, "true", true, 3⟩ 3 ⟨"03:00", 20⟩
      ⟨"5", 5, "N", 90⟩ ⟨"0.1"⟩).hour = none ∧
    (renderBlock ⟨false, false, "true", true, 3⟩ 3 ⟨"03:00", 20⟩
      ⟨"5", 5, "N", 90⟩ ⟨"0.1"⟩).temperature = none ∧
    (renderBlock ⟨false, false, "true", true, 3⟩ 3 ⟨"03:00", 20⟩
      ⟨"5", 5, "N", 90⟩ ⟨"0.1"⟩).wind = [] ∧
    (renderBlock ⟨false, false, "true", true, 3⟩ 3 ⟨"03:00", 20⟩
      ⟨"5", 5, "N", 90⟩ ⟨"0.1"⟩).precipitation = none :=
  (C3_label_suppression ⟨false, false, "true", true, 3⟩ (by norm_num) 6 3
    (by simp [axisIndices, mem_axisIndicesFrom])
    ⟨"03:00", 20⟩ ⟨"5", 5, "N", 90⟩ ⟨"0.1"⟩).2.2 (by decide)

/-- C5: wind rendering per mode on a non-suppressed slot — `'true'` gives
speed, a line break, then direction; `'speed'` only the speed text;
`'direction'` only the direction text; `'barb'` a glyph rotated by the raw
direction in degrees whose hover text combines speed and direction; any
other value (including `'false'`) gives no wind content. -/
theorem C5_wind_modes (w : SegmentWind) :
    windContent "true" false w =
      [WindItem.speedText w.windSpeed, WindItem.lineBreak,
        WindItem.directionText w.windDirection] ∧
    windContent "speed" false w = [WindItem.speedText w.windSpeed] ∧
    windContent "direction" false w = [WindItem.directionText w.windDirection] ∧
    windContent "barb" false w =
      [WindItem.barb (w.windSpeed ++ " " ++ w.windDirection)
        (getWindBarb w.windSpeedRawMS w.windDirectionRaw)] ∧
    (getWindBarb w.windSpeedRawMS w.windDirectionRaw).transform =
      "rotate(" ++ toString w.windDirectionRaw ++ "deg)" ∧
    (∀ m : String, m ≠ "true" → m ≠ "speed" → m ≠ "direction" → m ≠ "barb" →
      windContent m false w = []) := by
  refine ⟨by simp [windContent], by simp [windContent], by simp [windContent],
    by simp [windContent], rfl, ?_⟩
  intro m h1 h2 h3 h4
  simp [windContent, h1, h2, h3, h4]

/-- C5 witness: mode `"false"` renders nothing for a concrete slot. -/
theorem C5_wind_modes_witness : windContent "false" false ⟨"5", 5, "N", 90⟩ = [] :=
  (C5_wind_modes ⟨"5", 5, "N", 90⟩).2.2.2.2.2 "false"
    (by decide) (by decide) (by decide) (by decide)

/-- C6: when the icon lookup returns the condition key itself, the resolved
identifier is the generic weather prefix plus that value; in every other
case (a different value, or an absent entry coercing to `undefined`) it is
the plain prefix plus the looked-up value. -/
theorem C6_icon_resolution (icons : List (String × String)) (key : String) :
    (jsLookup icons key = JSVal.str key →
      resolveIcon icons key = "mdi:weather-" ++ key) ∧
    (jsLookup icons key ≠ JSVal.str key →
      resolveIcon icons key = jsConcat "mdi:" (jsLookup icons key)) := by
  constructor
  · intro h
    simp [resolveIcon, h, jsEq, jsConcat]
  · intro h
    cases hc : jsLookup icons key with
    | undef => simp [resolveIcon, hc, jsEq, jsConcat]
    | str v =>
      have hv : ¬v = key := by
        intro he
        exact h (by rw [hc, he])
      simp [resolveIcon, hc, jsEq, jsConcat, hv]

/-- C6 witness: a lookup returning the key unchanged gets the generic
weather prefix. -/
theorem C6_icon_resolution_witness :
    resolveIcon [("sunny", "sunny")] "sunny" = "mdi:weather-" ++ "sunny" :=
  (C6_icon_resolution [("sunny", "sunny")] "sunny").1 (by decide)

/-- C10: a key absent from the icon table resolves to `"mdi:undefined"`
(plain prefix plus the coerced `undefined` lookup), never to the generic
weather-prefixed variant. -/
theorem C10_unknown_icon_key (icons : List (String × String)) (key : String)
    (h : icons.lookup key = none) :
    resolveIcon icons key = "mdi:undefined" ∧
    resolveIcon icons key ≠ "mdi:weather-undefined" := by
  have hl : jsLookup icons key = JSVal.undef := by
    rw [jsLookup, h]
  have h1 : resolveIcon icons key = "mdi:undefined" := by
    simp [resolveIcon, hl, jsEq, jsConcat]
  refine ⟨h1, ?_⟩
  rw [h1]
  decide

/-- C10 witness: the empty icon table at key `"foo"`. -/
theorem C10_unknown_icon_key_witness :
    resolveIcon [] "foo" = "mdi:undefined" :=
  (C10_unknown_icon_key [] "foo" rfl).1

/-- C4 counterexample: for the key `"foo"` absent from the labels mapping,
the rendered segment's class name is the raw key, but its displayed and
tooltip label is the `undefined` lookup result, not the raw key — the code
has no fallback to `cond[0]` for the label. -/
theorem C4_unknown_label_cex :
    ((conditionBars [] [] [("foo", (1 : Int))]).map
      (fun s => (s.className, s.tooltip, s.label))) =
      [("foo", JSVal.undef, JSVal.undef)] ∧
    JSVal.undef ≠ JSVal.str "foo" := by
  exact ⟨by decide, by decide⟩

/-- C4 (amended): for every condition key not present in the labels
mapping, the segment uses the raw key as its CSS class name, and its
displayed/tooltip label is the `undefined` lookup result (rendered as
empty), not the raw key; no error occurs. -/
theorem C4_unknown_label (labels icons : List (String × String))
    (conds : List (String × Int)) (i : Nat) (s : BarSegment) (c : String × Int)
    (hs : (conditionBars labels icons conds)[i]? = some s)
    (hc : conds[i]? = some c) (habs : labels.lookup c.1 = none) :
    s.className = c.1 ∧ s.tooltip = JSVal.undef ∧ s.label = JSVal.undef := by
  obtain ⟨c', hc', h1, h2, h3, _, _, _⟩ :=
    renderBarFrom_getElem? labels icons conds 1 i s (by exact hs)
  rw [hc] at hc'
  cases hc'
  refine ⟨h1, ?_, ?_⟩
  · rw [h2, jsLookup, habs]
  · rw [h3, jsLookup, habs]

/-- C4 witness: the unknown key `"foo"` with an empty labels table. -/
theorem C4_unknown_label_witness :
    (⟨"foo", 1, 2, JSVal.undef, "mdi:undefined", JSVal.undef⟩ :
      BarSegment).className = ("foo", (1 : Int)).1 ∧
    (⟨"foo", 1, 2, JSVal.undef, "mdi:undefined", JSVal.undef⟩ :
      BarSegment).tooltip = JSVal.undef ∧
    (⟨"foo", 1, 2, JSVal.undef, "mdi:undefined", JSVal.undef⟩ :
      BarSegment).label = JSVal.undef :=
  C4_unknown_label [] [] [("foo", 1)] 0
    ⟨"foo", 1, 2, JSVal.undef, "mdi:undefined", JSVal.undef⟩ ("foo", 1)
    (by decide) (by decide) (by decide)

/-- C7: color-override emission is a deterministic function of the color
map; an absent or empty map emits no style block; the singleton map
`{"sunny": "#ffcc00"}` emits exactly the declaration
`--color-sunny: #ffcc00;` and nothing else. -/
theorem C7_color_styles :
    (∀ c c' : Option (List (String × String)), c = c' →
      colorStylesBlock c = colorStylesBlock c') ∧
    colorStylesBlock none = none ∧
    colorStylesBlock (some []) = none ∧
    colorStylesBlock (some [("sunny", "#ffcc00")]) =
      some "--color-sunny: #ffcc00;" := by
  refine ⟨?_, rfl, rfl, ?_⟩
  · intro c c' h
    rw [h]
  · decide

/-- C7 witness: determinism applied at a concrete map. -/
theorem C7_color_styles_witness :
    colorStylesBlock (some [("sunny", "#ffcc00")]) =
      colorStylesBlock (some [("sunny", "#ffcc00")]) :=
  C7_color_styles.1 (some [("sunny", "#ffcc00")]) (some [("sunny", "#ffcc00")]) rfl

/-- C8: when the wind and precipitation sequences are at least as long as
the temperatures sequence, every access the axis loop performs is in
bounds, and every rendered block exists (the out-of-range outcome is
unreachable). -/
theorem C8_axis_bounds (cfg : Config) (ts : List SegmentTemperature)
    (ws : List SegmentWind) (ps : List SegmentPrecipitation)
    (hw : ts.length ≤ ws.length) (hp : ts.length ≤ ps.length) :
    (∀ i ∈ axisIndices ts.length,
      ts[i]?.isSome = true ∧ ws[i]?.isSome = true ∧ ps[i]?.isSome = true) ∧
    (∀ b ∈ renderAxis cfg ts ws ps, b.isSome = true) := by
  have hidx : ∀ i ∈ axisIndices ts.length, i < ts.length := by
    intro i hi
    rw [axisIndices, mem_axisIndicesFrom] at hi
    omega
  constructor
  · intro i hi
    have h1 := hidx i hi
    exact ⟨getElem?_isSome_of_lt _ _ h1,
      getElem?_isSome_of_lt _ _ (lt_of_lt_of_le h1 hw),
      getElem?_isSome_of_lt _ _ (lt_of_lt_of_le h1 hp)⟩
  · intro b hb
    rw [renderAxis] at hb
    obtain ⟨i, hi, rfl⟩ := List.mem_map.mp hb
    have h1 := hidx i hi
    rw [List.getElem?_eq_getElem h1,
      List.getElem?_eq_getElem (lt_of_lt_of_le h1 hw),
      List.getElem?_eq_getElem (lt_of_lt_of_le h1 hp)]
    rfl

/-- C8 witness: equal-length two-element inputs put the single sampled
access at index 1 in bounds. -/
theorem C8_axis_bounds_witness :
    ([⟨"00:00", 10⟩, ⟨"01:00", 11⟩] : List SegmentTemperature)[1]?.isSome = true ∧
    ([⟨"3", 3, "N", 0⟩, ⟨"4", 4, "S", 180⟩] : List SegmentWind)[1]?.isSome = true ∧
    ([⟨"0"⟩, ⟨"0.2"⟩] : List SegmentPrecipitation)[1]?.isSome = true :=
  (C8_axis_bounds ⟨false, false, "false", false, 2⟩
    [⟨"00:00", 10⟩, ⟨"01:00", 11⟩] [⟨"3", 3, "N", 0⟩, ⟨"4", 4, "S", 180⟩]
    [⟨"0"⟩, ⟨"0.2"⟩] (by decide) (by decide)).1 1
    (by simp [axisIndices, mem_axisIndicesFrom])

/-- Destroying each stored instance in order is a map over the stored list. -/
theorem destroyAll_eq_map {α : Type} (l : List α) :
    destroyAll l = l.map TipEvent.destroy := by
  induction l with
  | nil => rfl
  | cons a l ih => simp [destroyAll, ih]

/-- Creating one instance per segment in order is a map over the segments. -/
theorem bindAll_eq_map {α : Type} (l : List α) :
    bindAll l = l.map TipEvent.create := by
  induction l with
  | nil => rfl
  | cons a l ih => simp [bindAll, ih]

/-- An element found at an optional index is a member of the list. -/
theorem mem_of_getElem?_eq_some {α : Type} {l : List α} {i : Nat} {a : α}
    (h : l[i]? = some a) : a ∈ l := by
  rw [List.getElem?_eq_some] at h
  obtain ⟨hlt, rfl⟩ := h
  exact List.getElem_mem _

/-- C9: one `update` stores exactly one tooltip instance per current
condition-bar segment element, destroys every previously stored instance,
and in its event trace every destruction precedes every creation — a full
teardown/rebuild, so no binding survives across renders. -/
theorem C9_tooltip_lifecycle (st : TooltipState BarSegment)
    (labels icons : List (String × String)) (conds : List (String × Int)) :
    (updateTooltips st (conditionBars labels icons conds)).tips =
      conditionBars labels icons conds ∧
    (updateTooltips st (conditionBars labels icons conds)).trace =
      st.trace ++ tooltipEvents st (conditionBars labels icons conds) ∧
    (∀ t ∈ st.tips,
      TipEvent.destroy t ∈ tooltipEvents st (conditionBars labels icons conds)) ∧
    (∀ (i j : Nat) (e f : TipEvent BarSegment),
      (tooltipEvents st (conditionBars labels icons conds))[i]? = some e →
      (tooltipEvents st (conditionBars labels icons conds))[j]? = some f →
      e.isDestroy = true → f.isCreate = true → i < j) ∧
    (∀ s : BarSegment,
      TipEvent.create s ∈ tooltipEvents st (conditionBars labels icons conds) →
      s ∈ conditionBars labels icons conds) := by
  refine ⟨rfl, rfl, ?_, ?_, ?_⟩
  · intro t ht
    rw [tooltipEvents, destroyAll_eq_map]
    exact List.mem_append_left _ (List.mem_map.mpr ⟨t, ht, rfl⟩)
  · intro i j e f hi hj he hf
    rw [tooltipEvents] at hi hj
    have hilt : i < (destroyAll st.tips).length := by
      by_contra hge
      rw [List.getElem?_append_right (Nat.le_of_not_lt hge)] at hi
      have hmem := mem_of_getElem?_eq_some hi
      rw [bindAll_eq_map] at hmem
      obtain ⟨x, _, rfl⟩ := List.mem_map.mp hmem
      simp [TipEvent.isDestroy] at he
    have hjge : (destroyAll st.tips).length ≤ j := by
      by_contra hlt
      rw [List.getElem?_append_left (Nat.lt_of_not_le hlt)] at hj
      have hmem := mem_of_getElem?_eq_some hj
      rw [destroyAll_eq_map] at hmem
      obtain ⟨x, _, rfl⟩ := List.mem_map.mp hmem
      simp [TipEvent.isCreate] at hf
    omega
  · intro s hs
    rw [tooltipEvents] at hs
    rcases List.mem_append.mp hs with hmem | hmem
    · rw [destroyAll_eq_map] at hmem
      obtain ⟨x, _, hx⟩ := List.mem_map.mp hmem
      cases hx
    · rw [bindAll_eq_map] at hmem
      obtain ⟨x, hxmem, hx⟩ := List.mem_map.mp hmem
      cases hx
      exact hxmem

/-- C9 witness: with one stored instance and one current segment, its
destruction (index 0) precedes the new creation (index 1). -/
theorem C9_tooltip_lifecycle_witness : (0 : Nat) < 1 :=
  (C9_tooltip_lifecycle
    ⟨[⟨"old", 1, 2, JSVal.undef, "mdi:undefined", JSVal.undef⟩], []⟩
    [] [] [("sunny", 2)]).2.2.2.1 0 1
    (TipEvent.destroy ⟨"old", 1, 2, JSVal.undef, "mdi:undefined", JSVal.undef⟩)
    (TipEvent.create ⟨"sunny", 1, 3, JSVal.undef, "mdi:undefined", JSVal.undef⟩)
    (by decide) (by decide) rfl rfl
